import Mathlib

/-!
Cosmic Match backend: verification of the pair-scoring engine and match gate.

Shallow embedding of `src/app/main.py` (the single FastAPI module of the
`cosmic-backend` repository).  Pure scoring helpers become Lean functions;
the database-backed endpoints (`like_profile`, `accept_chat`, `send_message`)
become explicit state-passing functions over a `DBState` record that holds the
`cosmic_matches` and `cosmic_messages` rows in insertion order, with
SQLAlchemy's `.first()` modelled as `List.find?` and `.count()` as
`List.filter`-length.  External effects (the generative-AI leak classifier,
Redis pub/sub relay, push notifications) enter as explicit parameters or are
reflected in the returned result; Python exceptions become `Option`/result
variants.  Python integers are exact, so scores are `Int`/`Nat`;
`int(s, 16)` is modelled by `pyIntHex` below.
-/

namespace Cosmic

/-! ## Scientific calculation engines (`main.py` lines 153–195) -/

/-- The element table of `get_astrology_score`:
`{"Fire": ["Aries","Leo","Sagittarius"], "Earth": [...], "Air": [...], "Water": [...]}`.
Python dicts iterate in insertion order, so a list of pairs is faithful. -/
def elements : List (String × List String) :=
  [("Fire", ["Aries", "Leo", "Sagittarius"]),
   ("Earth", ["Taurus", "Virgo", "Capricorn"]),
   ("Air", ["Gemini", "Libra", "Aquarius"]),
   ("Water", ["Cancer", "Scorpio", "Pisces"])]

/-- `def find_el(s): return next(k for k, v in elements.items() if s in v)`.
`next` on an exhausted generator raises `StopIteration`, modelled as `none`. -/
def find_el (s : String) : Option String :=
  (elements.find? (fun kv => s ∈ kv.2)).map (·.1)

/-- `harmonies = [("Fire", "Air"), ("Earth", "Water")]`. -/
def harmonies : List (String × String) := [("Fire", "Air"), ("Earth", "Water")]

/-- `get_astrology_score(sign_a, sign_b)` (`main.py` 155–162).  Returns `none`
when a sign is in no element group (the Python code would raise
`StopIteration` from `find_el`). -/
def get_astrology_score (sign_a sign_b : String) : Option Int := do
  let el_a ← find_el sign_a
  let el_b ← find_el sign_b
  if el_a = el_b then pure 95
  else if (el_a, el_b) ∈ harmonies ∨ (el_b, el_a) ∈ harmonies then pure 85
  else pure 45

/-- `val_map = {c: (i % 9) + 1 for i, c in enumerate("abcdefghijklmnopqrstuvwxyz")}`,
looked up with `.get(char, 0)`. -/
def val_map (c : Char) : Nat :=
  match ("abcdefghijklmnopqrstuvwxyz".toList).indexOf? c with
  | some i => i % 9 + 1
  | none => 0

/-- `sum(int(d) for d in str(total))`: the decimal digit sum, peeling digits
with `% 10` / `/ 10`.  Structural recursion on a fuel bound keeps the
definition kernel-computable; `sumDigitsAux_congr` shows any fuel `≥ n`
gives the same value. -/
def sumDigitsAux : Nat → Nat → Nat
  | 0, n => n
  | fuel + 1, n => if n < 10 then n else n % 10 + sumDigitsAux fuel (n / 10)

theorem sumDigitsAux_congr :
    ∀ (f f' n : Nat), n ≤ f → n ≤ f' → sumDigitsAux f n = sumDigitsAux f' n := by
  intro f
  induction f with
  | zero =>
    intro f' n hf _
    have hn : n = 0 := Nat.le_zero.mp hf
    subst hn
    cases f' with
    | zero => rfl
    | succ f' => simp [sumDigitsAux]
  | succ f ih =>
    intro f' n hf hf'
    cases f' with
    | zero =>
      have hn : n = 0 := Nat.le_zero.mp hf'
      subst hn
      simp [sumDigitsAux]
    | succ f' =>
      show (if n < 10 then n else n % 10 + sumDigitsAux f (n / 10)) =
           (if n < 10 then n else n % 10 + sumDigitsAux f' (n / 10))
      split
      · rfl
      · have hd : n / 10 < n := Nat.div_lt_self (by omega) (by omega)
        rw [ih f' (n / 10) (by omega) (by omega)]

/-- The decimal digit sum of `n`. -/
def sumDigits (n : Nat) : Nat := sumDigitsAux n n

/-- `sumDigits` satisfies the digit-peeling recurrence, confirming that the
fuel `n` of `sumDigitsAux` is always enough. -/
theorem sumDigits_eq (n : Nat) :
    sumDigits n = if n < 10 then n else n % 10 + sumDigits (n / 10) := by
  cases n with
  | zero => simp [sumDigits, sumDigitsAux]
  | succ m =>
    show sumDigitsAux (m + 1) (m + 1) = _
    show (if m + 1 < 10 then m + 1 else (m + 1) % 10 + sumDigitsAux m ((m + 1) / 10)) = _
    split
    · rfl
    · have hd : (m + 1) / 10 < m + 1 := Nat.div_lt_self (by omega) (by omega)
      rw [sumDigitsAux_congr m ((m + 1) / 10) ((m + 1) / 10) (by omega) (Nat.le_refl _)]
      rfl

theorem sumDigits_le (n : Nat) : sumDigits n ≤ n := by
  induction n using Nat.strong_induction_on with
  | _ n ih =>
    rw [sumDigits_eq]
    split
    · exact Nat.le_refl n
    · have h1 : n / 10 < n := Nat.div_lt_self (by omega) (by omega)
      have h2 : sumDigits (n / 10) ≤ n / 10 := ih _ h1
      omega

theorem sumDigits_lt (n : Nat) (hn : 10 ≤ n) : sumDigits n < n := by
  rw [sumDigits_eq]
  split
  · omega
  · have h1 : n / 10 < n := Nat.div_lt_self (by omega) (by omega)
    have h2 : sumDigits (n / 10) ≤ n / 10 := sumDigits_le (n / 10)
    omega

/-- `while total > 9: total = sum(int(d) for d in str(total))`, with the same
fuel technique (`digitalRootAux_congr` and `digitalRoot_eq` justify it). -/
def digitalRootAux : Nat → Nat → Nat
  | 0, n => n
  | fuel + 1, n => if 9 < n then digitalRootAux fuel (sumDigits n) else n

theorem digitalRootAux_congr :
    ∀ (f f' n : Nat), n ≤ f → n ≤ f' → digitalRootAux f n = digitalRootAux f' n := by
  intro f
  induction f with
  | zero =>
    intro f' n hf _
    have hn : n = 0 := Nat.le_zero.mp hf
    subst hn
    cases f' with
    | zero => rfl
    | succ f' => simp [digitalRootAux]
  | succ f ih =>
    intro f' n hf hf'
    cases f' with
    | zero =>
      have hn : n = 0 := Nat.le_zero.mp hf'
      subst hn
      simp [digitalRootAux]
    | succ f' =>
      show (if 9 < n then digitalRootAux f (sumDigits n) else n) =
           (if 9 < n then digitalRootAux f' (sumDigits n) else n)
      split
      · have hs : sumDigits n < n := sumDigits_lt n (by omega)
        rw [ih f' (sumDigits n) (by omega) (by omega)]
      · rfl

/-- The single-digit reduction loop of `calc_destiny` and `get_life_path`. -/
def digitalRoot (n : Nat) : Nat := digitalRootAux n n

/-- `digitalRoot` satisfies the loop's defining equation. -/
theorem digitalRoot_eq (n : Nat) :
    digitalRoot n = if 9 < n then digitalRoot (sumDigits n) else n := by
  cases n with
  | zero => simp [digitalRoot, digitalRootAux]
  | succ m =>
    show digitalRootAux (m + 1) (m + 1) = _
    show (if 9 < m + 1 then digitalRootAux m (sumDigits (m + 1)) else m + 1) = _
    split
    · have hs : sumDigits (m + 1) < m + 1 := sumDigits_lt (m + 1) (by omega)
      rw [digitalRootAux_congr m (sumDigits (m + 1)) (sumDigits (m + 1)) (by omega)
        (Nat.le_refl _)]
      rfl
    · rfl


/-- `calc_destiny(name)` inside `get_numerology_harmony` (`main.py` 165–169):
sum `val_map` over the lower-cased alphabetic characters, then reduce to a
single decimal digit.  Python's unicode-aware `isalpha`/`lower` are modelled
by `Char.isAlpha`/`Char.toLower` (they agree on ASCII, the intended input). -/
def calc_destiny (name : String) : Nat :=
  digitalRoot (((name.toList.filter Char.isAlpha).map (fun ch => val_map ch.toLower)).sum)

/-- `get_numerology_harmony(name_a, name_b)` (`main.py` 164–172). -/
def get_numerology_harmony (name_a name_b : String) : Int :=
  let d1 := calc_destiny name_a
  let d2 := calc_destiny name_b
  let diff : Nat := ((d1 : Int) - (d2 : Int)).natAbs
  if diff = 0 then 98 else if diff ∈ [2, 4, 6] then 80 else 40

/-- Strip whitespace from both ends of a character list (Python `str.strip`
restricted to ASCII whitespace, which is all an email can contain). -/
def py_strip (cs : List Char) : List Char :=
  (((cs.dropWhile Char.isWhitespace).reverse).dropWhile Char.isWhitespace).reverse

/-- Python `str.lower()`, per character (ASCII case folding). -/
def py_lower (s : String) : String := String.mk (s.toList.map Char.toLower)

/-- `email.lower().strip()`, the normalisation applied by the match-gate
endpoints, implemented on the character list so that it is
kernel-computable. -/
def py_lower_strip (s : String) : String := String.mk (py_strip (py_lower s).toList)

/-- Value of a hexadecimal digit, if the character is one. -/
def hexDigitVal (c : Char) : Option Nat :=
  if '0' ≤ c ∧ c ≤ '9' then some (c.toNat - '0'.toNat)
  else if 'a' ≤ c ∧ c ≤ 'f' then some (c.toNat - 'a'.toNat + 10)
  else if 'A' ≤ c ∧ c ≤ 'F' then some (c.toNat - 'A'.toNat + 10)
  else none

/-- Accumulate hex digits; `none` as soon as a non-hex-digit appears. -/
def hexVal : List Char → Nat → Option Nat
  | [], acc => some acc
  | c :: cs, acc =>
    match hexDigitVal c with
    | some d => hexVal cs (acc * 16 + d)
    | none => none

/-- Python's `int(s, 16)`: optional surrounding whitespace, optional sign,
optional `0x`/`0X` prefix, then one or more hexadecimal digits; anything else
raises `ValueError`, modelled as `none`.  (Digit-group underscores, accepted
by Python, are not modelled; they cannot occur in the hex-hash palm
signatures this parser receives.) -/
def pyIntHex (s : String) : Option Int :=
  let cs := py_strip s.toList
  let signAndRest : Int × List Char :=
    match cs with
    | '+' :: rest => (1, rest)
    | '-' :: rest => (-1, rest)
    | _ => (1, cs)
  let body : List Char :=
    match signAndRest.2 with
    | '0' :: c :: rest => if c = 'x' ∨ c = 'X' then rest else '0' :: c :: rest
    | l => l
  if body.isEmpty then none
  else (hexVal body 0).map (fun v => signAndRest.1 * (v : Int))

/-- `int(sig[:4], 16) if sig and sig != "NONE" else 0`: the value drawn from a
palm signature.  An absent signature (falsy empty string — a SQL `NULL`
behaves the same — or the placeholder `"NONE"`) defaults to `0`; a present
but non-hexadecimal one raises `ValueError`, modelled as `none`. -/
def palm_val (sig : String) : Option Int :=
  if sig ≠ "" ∧ sig ≠ "NONE" then pyIntHex (String.mk (sig.toList.take 4)) else some 0

/-- `get_palm_variance(sig_a, sig_b)` (`main.py` 174–178).  Python `%` on a
nonnegative left operand and positive modulus agrees with `Int.emod`. -/
def get_palm_variance (sig_a sig_b : String) : Option Int := do
  let val_a ← palm_val sig_a
  let val_b ← palm_val sig_b
  pure (100 - ((val_a - val_b).natAbs : Int) % 100)

/-! ## Utility functions (`main.py` 186–195) -/

/-- `zodiac_data` of `get_sun_sign`: `(cutoff day, sign)` per month. -/
def zodiac_data : List (Nat × String) :=
  [(19, "Aquarius"), (18, "Pisces"), (20, "Aries"), (19, "Taurus"),
   (20, "Gemini"), (20, "Cancer"), (22, "Leo"), (22, "Virgo"),
   (22, "Libra"), (22, "Scorpio"), (21, "Sagittarius"), (21, "Capricorn")]

/-- Python list indexing `l[i]`: negative indices count from the end;
out-of-range raises `IndexError`, modelled as `none`. -/
def pyIndex {α : Type} (l : List α) (i : Int) : Option α :=
  if 0 ≤ i then l.get? i.toNat
  else if (-i).toNat ≤ l.length then l.get? (l.length - (-i).toNat) else none

/-- `get_sun_sign(day, month)` (`main.py` 186–189):
`zodiac_data[idx][1] if day > zodiac_data[idx][0] else zodiac_data[(idx - 1) % 12][1]`
with `idx = month - 1`; Python `%` on a negative left operand matches
`Int.emod`. -/
def get_sun_sign (day month : Nat) : Option String := do
  let cur ← pyIndex zodiac_data ((month : Int) - 1)
  if day > cur.1 then pure cur.2
  else do
    let prev ← pyIndex zodiac_data (((month : Int) - 1 - 1) % 12)
    pure prev.2

/-- `get_life_path(dob_str)` (`main.py` 191–195): digit sum of the date
string's decimal digits, reduced to one digit. -/
def get_life_path (dob_digits : List Nat) : Nat :=
  digitalRoot dob_digits.sum

/-! ## The pairwise score of `get_feed` (`main.py` 283–316) -/

/-- The stored attributes of a `cosmic_profiles` row that the pair scorer
reads: birthday (day and month), display name, optional legal name, and the
palm signature. -/
structure PairAttrs where
  name : String
  full_legal_name : Option String
  birthday_day : Nat
  birthday_month : Nat
  palm_signature : String
  deriving Repr, DecidableEq

/-- `me.full_legal_name or me.name`: Python `or` falls through on a falsy
(absent or empty) legal name. -/
def effName (u : PairAttrs) : String :=
  match u.full_legal_name with
  | some s => if s = "" then u.name else s
  | none => u.name

/-- `int((astro * 0.4) + (num * 0.3) + (palm * 0.3))` (`main.py` 290).  The
source evaluates with IEEE-754 doubles and truncates toward zero; modelled
here with the exact decimal weights, `(4a + 3n + 3p) / 10` (all component
scores are nonnegative, so floor division is truncation).  Every theorem
below uses this definition only as a fixed deterministic function of the
three component scores, so it is insensitive to double-rounding at the last
decimal place. -/
def match_score (astro num palm : Int) : Int :=
  (4 * astro + 3 * num + 3 * palm) / 10

/-- `"MARRIAGE MATERIAL" if match_score >= 85 else "INTENSE FLING" if match_score >= 65 else "KARMIC LESSON"`. -/
def tier (ms : Int) : String :=
  if ms ≥ 85 then "MARRIAGE MATERIAL" else if ms ≥ 65 then "INTENSE FLING" else "KARMIC LESSON"

/-- The deterministic core of one feed entry for the pair (me, o)
(`main.py` 285–291): sun signs, the three component scores, their weighted
total and its tier, in the source's evaluation order.  `none` models an
exception escaping the scorers (unknown sign or unparsable palm
signature). -/
def pairScore (me o : PairAttrs) : Option (Int × Int × Int × Int × String) := do
  let my_sign ← get_sun_sign me.birthday_day me.birthday_month
  let o_sign ← get_sun_sign o.birthday_day o.birthday_month
  let astro ← get_astrology_score my_sign o_sign
  let num := get_numerology_harmony (effName me) (effName o)
  let palm ← get_palm_variance me.palm_signature o.palm_signature
  let ms := match_score astro num palm
  pure (astro, num, palm, ms, tier ms)

/-- `factor_labels` (`main.py` 271). -/
def factor_labels : List String :=
  ["Health", "Power", "Creativity", "Social", "Emotional", "Mental",
   "Lifestyle", "Spiritual", "Sexual", "Family", "Economic", "Foundation"]

/-- One rendered feed entry: total percentage, tier, and the twelve named
sub-factor scores.  (The narrative `why`/`reading` strings are further text
derived from these values, the viewer's method flags and an external AI
call; the claims under verification concern the numeric fields.) -/
structure FeedEntry where
  percentage : Int
  tier : String
  factors : List (String × Int)
  deriving Repr, DecidableEq

/-- The per-candidate body of `get_feed`'s loop (`main.py` 285–316).
`f_score = min(99, max(1, match_score + random.randint(-10, 10)))` draws one
value per factor label from the process-global unseeded generator; the draws
consumed are made explicit as the `draws` argument (one `randint(-10, 10)`
result per label, in label order). -/
def feedEntry (me o : PairAttrs) (draws : List Int) : Option FeedEntry := do
  let (_, _, _, ms, t) ← pairScore me o
  let factors := (factor_labels.zip draws).map
    (fun fd => (fd.1, min 99 (max 1 (ms + fd.2))))
  pure { percentage := ms, tier := t, factors := factors }

/-- Two successive renderings of the same pair's feed entry: the first call
consumes the first twelve draws of the generator's output stream, the second
call the next twelve (`random.randint` advances shared global state). -/
def feedEntryTwice (me o : PairAttrs) (stream : List Int) :
    Option FeedEntry × Option FeedEntry :=
  (feedEntry me o (stream.take 12), feedEntry me o ((stream.drop 12).take 12))

/-! ## Match-gate state (`main.py` 89–109 models, 320–392 endpoints) -/

/-- A `cosmic_matches` row. -/
structure MatchRec where
  user_a : String
  user_b : String
  is_mutual : Bool
  is_unlocked : Bool
  user_a_accepted : Bool
  user_b_accepted : Bool
  request_initiated_by : String
  user_a_typing : Bool
  user_b_typing : Bool
  deriving Repr, DecidableEq

/-- A `cosmic_messages` row (timestamps dropped: no verified claim reads
them). -/
structure ChatMsg where
  sender : String
  receiver : String
  content : String
  is_read : Bool
  deriving Repr, DecidableEq

/-- The persistent store: match and message rows in insertion order.
SQLAlchemy's unordered `.first()` is modelled as first-in-insertion-order. -/
structure DBState where
  cosmic_matches : List MatchRec
  cosmic_messages : List ChatMsg
  deriving Repr, DecidableEq

/-- A fresh non-mutual like row, as inserted by `like_profile`
(`main.py` 327): `Match(user_a=my, user_b=target, is_mutual=False,
request_initiated_by=my)`; the remaining columns take their defaults. -/
def newLike (my target : String) : MatchRec :=
  ⟨my, target, false, false, false, false, my, false, false⟩

/-- Update the first row satisfying `p` (SQLAlchemy mutates the single object
`.first()` returned). -/
def updateFirst {α : Type} (p : α → Bool) (f : α → α) : List α → List α
  | [] => []
  | x :: xs => if p x then f x :: xs else x :: updateFirst p f xs

/-- Delete the first row satisfying `p` (`db.delete` on the object
`.first()` returned). -/
def eraseFirst {α : Type} (p : α → Bool) : List α → List α
  | [] => []
  | x :: xs => if p x then xs else x :: eraseFirst p xs

/-- The either-orientation pair filter used by `chat_status`, `accept_chat`
and `get_feed`'s `match_rec` query:
`((user_a == me) & (user_b == them)) | ((user_b == me) & (user_a == them))`. -/
def pairPred (me them : String) (m : MatchRec) : Bool :=
  (m.user_a == me && m.user_b == them) || (m.user_b == me && m.user_a == them)

/-- The mutual-only filter of `send_message` (`main.py` 378):
either orientation, and `is_mutual == True`. -/
def mutualPred (s r : String) (m : MatchRec) : Bool :=
  (m.user_a == s && m.user_b == r && m.is_mutual) ||
  (m.user_b == s && m.user_a == r && m.is_mutual)

/-- How `get_feed` (line 310) and `chat_status` observe mutuality:
`match_rec.is_mutual if match_rec else False` over the either-orientation
query. -/
def mutual_between (st : DBState) (me them : String) : Bool :=
  match st.cosmic_matches.find? (pairPred me them) with
  | some m => m.is_mutual
  | none => false

inductive LikeResult | liked | matched
  deriving Repr, DecidableEq

/-- `like_profile` (`main.py` 320–328). -/
def like_profile (st : DBState) (my_email target_email : String) :
    DBState × LikeResult :=
  let my := py_lower_strip my_email
  let target := py_lower_strip target_email
  match st.cosmic_matches.find? (fun m => m.user_a == target && m.user_b == my) with
  | some _ =>
    ({ st with cosmic_matches :=
        (updateFirst (fun m => m.user_a == target && m.user_b == my)
          (fun m => { m with is_mutual := true }) st.cosmic_matches) },
     .matched)
  | none =>
    if (st.cosmic_matches.find? (fun m => m.user_a == my && m.user_b == target)).isSome then
      (st, .liked)
    else
      ({ st with cosmic_matches := st.cosmic_matches ++ [newLike my target] }, .liked)

inductive AcceptResult | accepted | payment_required | not_found
  deriving Repr, DecidableEq

/-- `engaged` count of `accept_chat`/`chat_status` (`main.py` 336, 362):
rows where this user's own side is accepted. -/
def engagedCount (st : DBState) (me : String) : Nat :=
  (st.cosmic_matches.filter
    (fun m => (m.user_a == me && m.user_a_accepted) ||
              (m.user_b == me && m.user_b_accepted))).length

/-- `accept_chat` (`main.py` 357–367).  `not_found` models the
`HTTPException(404)` on a missing pair. -/
def accept_chat (st : DBState) (me them is_paid : String) :
    DBState × AcceptResult :=
  let meN := py_lower_strip me
  let themN := py_lower_strip them
  let paid := py_lower is_paid == "true"
  match st.cosmic_matches.find? (pairPred meN themN) with
  | none => (st, .not_found)
  | some m =>
    if engagedCount st meN ≥ 2 ∧ ¬paid ∧ ¬(m.user_a_accepted ∨ m.user_b_accepted) then
      (st, .payment_required)
    else
      ({ st with cosmic_matches :=
          (updateFirst (pairPred meN themN)
            (fun x =>
              let x1 := if x.user_a == meN then { x with user_a_accepted := true }
                        else { x with user_b_accepted := true }
              if paid then { x1 with is_unlocked := true } else x1)
            st.cosmic_matches) },
       .accepted)

inductive SendResult | sent | forbidden
  deriving Repr, DecidableEq

/-- `send_message` (`main.py` 375–392).  The external leak classifier
(`ai_model.generate_content` plus the `"LEAK" in text` test) enters as
`classify`: `some true` = flagged, `some false` = not flagged, `none` = the
call raised.  `forbidden` models the `HTTPException(403)` raised when no
mutual match exists — raised *outside* the `try`, so it escapes.  On a
positive flag the code runs `db.delete(match); db.commit()` and then raises
`HTTPException(403)` *inside* its own `try`, whose
`except Exception` clause catches it; execution therefore falls through to
`db.add(ChatMessage(...)); db.commit()` and returns `{"status": "sent"}`. -/
def send_message (st : DBState) (sender receiver content : String)
    (classify : Option Bool) : DBState × SendResult :=
  let s := py_lower_strip sender
  let r := py_lower_strip receiver
  match st.cosmic_matches.find? (mutualPred s r) with
  | none => (st, .forbidden)
  | some m =>
    let st1 :=
      if ¬m.is_unlocked then
        match classify with
        | some true => { st with cosmic_matches := eraseFirst (mutualPred s r) st.cosmic_matches }
        | _ => st
      else st
    ({ st1 with cosmic_messages := st1.cosmic_messages ++ [⟨s, r, content, false⟩] }, .sent)

/-! ## Helper lemmas -/

theorem natAbs_sub_comm (x y : Int) : (x - y).natAbs = (y - x).natAbs := by
  rw [← Int.natAbs_neg, neg_sub]

theorem get_astrology_score_symm (a b : String) :
    get_astrology_score a b = get_astrology_score b a := by
  unfold get_astrology_score
  cases h1 : find_el a <;> cases h2 : find_el b <;> simp [h1, h2]
  rename_i x y
  by_cases hxy : x = y
  · subst hxy; simp
  · simp [hxy, Ne.symm hxy, or_comm]

theorem get_numerology_harmony_symm (a b : String) :
    get_numerology_harmony a b = get_numerology_harmony b a := by
  simp only [get_numerology_harmony]
  rw [natAbs_sub_comm (calc_destiny a : Int) (calc_destiny b : Int)]

theorem get_palm_variance_symm (a b : String) :
    get_palm_variance a b = get_palm_variance b a := by
  unfold get_palm_variance
  cases h1 : palm_val a <;> cases h2 : palm_val b <;> simp [h1, h2]
  rename_i x y
  rw [abs_sub_comm x y]

theorem pairScore_symm (me o : PairAttrs) : pairScore me o = pairScore o me := by
  unfold pairScore
  cases h1 : get_sun_sign me.birthday_day me.birthday_month <;>
    cases h2 : get_sun_sign o.birthday_day o.birthday_month <;>
      simp [h1, h2]
  rename_i sa sb
  simp only [get_astrology_score_symm sa sb,
    get_numerology_harmony_symm (effName me) (effName o),
    get_palm_variance_symm me.palm_signature o.palm_signature]

/-! ## Claims -/

/-- C1 counterexample.  The claim that under a role swap "every sub-factor
value is equal field-for-field" is false: each of the twelve factor scores
adds a fresh `random.randint(-10, 10)` draw from the process-global unseeded
generator, so A's rendering of the pair and B's rendering of the same pair
consume different draws (here the later rendering gets `1`s after the
earlier one's `0`s) and yield different sub-factor values for the same two
unchanged users. -/
theorem feed_entry_swap_differs :
    feedEntry ⟨"alice", none, 1, 1, ""⟩ ⟨"bob", none, 25, 12, ""⟩
        ((List.replicate 12 0 ++ List.replicate 12 1).take 12) ≠
    feedEntry ⟨"bob", none, 25, 12, ""⟩ ⟨"alice", none, 1, 1, ""⟩
        ((List.replicate 12 0 ++ List.replicate 12 1).drop 12) := by decide

/-- C1 (amended).  Pairwise score symmetry holds for the deterministic core
of the pair computation of `get_feed`: swapping which user is "me" leaves
the astrology score, the numerology harmony, the palm variance, the weighted
total and its tier all unchanged — `pairScore` returns the identical tuple.
(The twelve rendered sub-factor values are not covered: each rendering
consumes fresh random draws, see the counterexample.) -/
theorem pairwise_score_symmetry (me o : PairAttrs) :
    pairScore me o = pairScore o me :=
  pairScore_symm me o

/-- C3 counterexample.  The claim "computing the pair's feed entry twice
yields identical output both times" is false: each factor score adds a
`random.randint(-10, 10)` draw from the process-global unseeded generator,
so a second rendering that consumes later draws (here `1`s after `0`s)
produces different sub-factor scores for the same two unchanged users. -/
theorem feed_entry_twice_differs :
    (feedEntryTwice ⟨"alice", none, 1, 1, ""⟩ ⟨"bob", none, 25, 12, ""⟩
        (List.replicate 12 0 ++ List.replicate 12 1)).1 ≠
    (feedEntryTwice ⟨"alice", none, 1, 1, ""⟩ ⟨"bob", none, 25, 12, ""⟩
        (List.replicate 12 0 ++ List.replicate 12 1)).2 := by decide

/-- C3 (amended).  The total percentage and the tier of a pair's feed entry
are deterministic — they depend only on the two users' stored attributes and
are unchanged by the random draws; only the twelve sub-factor scores read the
random generator. -/
theorem feed_total_tier_deterministic (me o : PairAttrs) (draws draws' : List Int) :
    (feedEntry me o draws).map (fun e => (e.percentage, e.tier)) =
    (feedEntry me o draws').map (fun e => (e.percentage, e.tier)) := by
  unfold feedEntry
  cases h : pairScore me o with
  | none => simp [h]
  | some v =>
    obtain ⟨a, n, p, ms, t⟩ := v
    simp [h]

theorem updateFirst_append_left_none {α : Type} (p : α → Bool) (f : α → α)
    (l₁ l₂ : List α) (h : ∀ x ∈ l₁, ¬ p x = true) :
    updateFirst p f (l₁ ++ l₂) = l₁ ++ updateFirst p f l₂ := by
  induction l₁ with
  | nil => rfl
  | cons x xs ih =>
    have hx : p x = false := by
      have hh := h x (by simp)
      simpa using hh
    show (if p x then f x :: (xs ++ l₂) else x :: updateFirst p f (xs ++ l₂)) = _
    rw [hx]
    simp only [if_neg Bool.false_ne_true, List.cons_append, List.cons.injEq, true_and]
    exact ih (fun y hy => h y (by simp [hy]))

/-- C2 (evaluation at the failing input).  On a mutual, non-unlocked match,
with the classifier flagging the message as a leak (`classify = some true`),
`send_message` deletes the match row but then **persists the flagged message
and returns `sent`**: the `HTTPException(403)` raised after the delete sits
inside the same `try` whose `except Exception` swallows it, so the rejection
never reaches the sender and the message is relayed to the recipient. -/
theorem send_message_leak_outcome :
    send_message ⟨[⟨"a@x", "b@x", true, false, false, false, "a@x", false, false⟩], []⟩
        "a@x" "b@x" "call me on 555-0100" (some true) =
      (⟨[], [⟨"a@x", "b@x", "call me on 555-0100", false⟩]⟩, .sent) := by decide

/-- C9.  Classifier failure is fail-open: on a mutual, non-unlocked match,
when the external leak-classifier call raises (`classify = none`), the
exception is swallowed (`except Exception as e: print(...)`), the message is
treated as safe — appended to the message store and relayed — and the match
rows are left unchanged. -/
theorem send_message_classifier_failopen (st : DBState)
    (sender receiver content : String) (m : MatchRec)
    (hfind : st.cosmic_matches.find?
        (mutualPred (py_lower_strip sender) (py_lower_strip receiver)) = some m)
    (hul : m.is_unlocked = false) :
    send_message st sender receiver content none =
      ({ st with cosmic_messages := st.cosmic_messages ++
          [⟨py_lower_strip sender, py_lower_strip receiver, content, false⟩] },
       .sent) := by
  unfold send_message
  simp [hfind, hul]

theorem send_message_classifier_failopen_witness :
    send_message ⟨[⟨"a@x", "b@x", true, false, false, false, "a@x", false, false⟩], []⟩
        "a@x" "b@x" "hello" none =
      (⟨[⟨"a@x", "b@x", true, false, false, false, "a@x", false, false⟩],
        [⟨"a@x", "b@x", "hello", false⟩]⟩, .sent) :=
  send_message_classifier_failopen
    ⟨[⟨"a@x", "b@x", true, false, false, false, "a@x", false, false⟩], []⟩
    "a@x" "b@x" "hello"
    ⟨"a@x", "b@x", true, false, false, false, "a@x", false, false⟩
    (by decide) rfl

/-- C5.  Chat gating: a message is accepted (`sent`) exactly when a mutual
match row exists between the normalised pair in either stored orientation;
when no such row exists the call returns the distinguishable `forbidden`
result (`HTTPException(403)`, a deterministic FastAPI rejection, not an
unhandled 500) and the store is unchanged — no message is persisted. -/
theorem send_message_requires_mutual (st : DBState)
    (sender receiver content : String) (classify : Option Bool) :
    ((send_message st sender receiver content classify).2 = .sent ↔
      (st.cosmic_matches.find?
        (mutualPred (py_lower_strip sender) (py_lower_strip receiver))).isSome) ∧
    (st.cosmic_matches.find?
        (mutualPred (py_lower_strip sender) (py_lower_strip receiver)) = none →
      send_message st sender receiver content classify = (st, .forbidden)) := by
  unfold send_message
  cases h : st.cosmic_matches.find?
      (mutualPred (py_lower_strip sender) (py_lower_strip receiver)) with
  | none => simp [h]
  | some m => simp [h]

theorem send_message_requires_mutual_witness :
    send_message ⟨[⟨"a@x", "b@x", false, false, false, false, "a@x", false, false⟩], []⟩
        "a@x" "b@x" "hi" none =
      (⟨[⟨"a@x", "b@x", false, false, false, false, "a@x", false, false⟩], []⟩,
       .forbidden) :=
  (send_message_requires_mutual
    ⟨[⟨"a@x", "b@x", false, false, false, false, "a@x", false, false⟩], []⟩
    "a@x" "b@x" "hi" none).2 (by decide)

/-- C4.  Mutual upgrade: starting from a store with no row involving the
(normalised) pair in either orientation, `like(A,B)` returns `liked` and
`like(B,A)` then returns `match` — the upgrade fires on finding the existing
reverse row, with no separate confirm step — and afterwards the mutual flag
is observable from both query directions. -/
theorem like_mutual_upgrade (st : DBState) (A B : String)
    (hno : ∀ m ∈ st.cosmic_matches,
      ¬((m.user_a = py_lower_strip A ∧ m.user_b = py_lower_strip B) ∨
        (m.user_a = py_lower_strip B ∧ m.user_b = py_lower_strip A))) :
    (like_profile st A B).2 = .liked ∧
    (like_profile (like_profile st A B).1 B A).2 = .matched ∧
    mutual_between (like_profile (like_profile st A B).1 B A).1
      (py_lower_strip A) (py_lower_strip B) = true ∧
    mutual_between (like_profile (like_profile st A B).1 B A).1
      (py_lower_strip B) (py_lower_strip A) = true := by
  have hrev1 : st.cosmic_matches.find?
      (fun m => m.user_a == py_lower_strip B && m.user_b == py_lower_strip A) = none := by
    rw [List.find?_eq_none]
    intro x hx
    have hh := hno x hx
    simp only [Bool.and_eq_true, beq_iff_eq]
    exact fun hcon => hh (Or.inr hcon)
  have hfwd1 : st.cosmic_matches.find?
      (fun m => m.user_a == py_lower_strip A && m.user_b == py_lower_strip B) = none := by
    rw [List.find?_eq_none]
    intro x hx
    have hh := hno x hx
    simp only [Bool.and_eq_true, beq_iff_eq]
    exact fun hcon => hh (Or.inl hcon)
  have h1 : like_profile st A B =
      ({ st with cosmic_matches := st.cosmic_matches ++
          [newLike (py_lower_strip A) (py_lower_strip B)] }, .liked) := by
    simp only [like_profile]
    rw [hrev1, hfwd1]
    simp
  have hfind2 : (st.cosmic_matches ++
        [newLike (py_lower_strip A) (py_lower_strip B)]).find?
      (fun m => m.user_a == py_lower_strip A && m.user_b == py_lower_strip B) =
      some (newLike (py_lower_strip A) (py_lower_strip B)) := by
    rw [List.find?_append, hfwd1]
    simp [newLike]
  have hupd : updateFirst
      (fun m => m.user_a == py_lower_strip A && m.user_b == py_lower_strip B)
      (fun m => { m with is_mutual := true })
      (st.cosmic_matches ++ [newLike (py_lower_strip A) (py_lower_strip B)]) =
      st.cosmic_matches ++
        [⟨py_lower_strip A, py_lower_strip B, true, false, false, false,
          py_lower_strip A, false, false⟩] := by
    rw [updateFirst_append_left_none _ _ _ _ (fun x hx => by
      have hh := hno x hx
      simp only [Bool.and_eq_true, beq_iff_eq]
      exact fun hcon => hh (Or.inl hcon))]
    simp [updateFirst, newLike]
  have h2 : like_profile (like_profile st A B).1 B A =
      ({ st with cosmic_matches := st.cosmic_matches ++
          [⟨py_lower_strip A, py_lower_strip B, true, false, false, false,
            py_lower_strip A, false, false⟩] }, .matched) := by
    rw [h1]
    simp only [like_profile]
    rw [hfind2, hupd]
  have hpair1 : st.cosmic_matches.find?
      (pairPred (py_lower_strip A) (py_lower_strip B)) = none := by
    rw [List.find?_eq_none]
    intro x hx
    have hh := hno x hx
    simp only [pairPred, Bool.or_eq_true, Bool.and_eq_true, beq_iff_eq]
    rintro (hcon | hcon)
    · exact hh (Or.inl hcon)
    · exact hh (Or.inr ⟨hcon.2, hcon.1⟩)
  have hpair2 : st.cosmic_matches.find?
      (pairPred (py_lower_strip B) (py_lower_strip A)) = none := by
    rw [List.find?_eq_none]
    intro x hx
    have hh := hno x hx
    simp only [pairPred, Bool.or_eq_true, Bool.and_eq_true, beq_iff_eq]
    rintro (hcon | hcon)
    · exact hh (Or.inr hcon)
    · exact hh (Or.inl ⟨hcon.2, hcon.1⟩)
  refine ⟨by rw [h1], by rw [h2], ?_, ?_⟩
  · rw [h2]
    simp only [mutual_between]
    rw [List.find?_append, hpair1]
    simp [pairPred]
  · rw [h2]
    simp only [mutual_between]
    rw [List.find?_append, hpair2]
    simp [pairPred]

theorem like_mutual_upgrade_witness :
    (like_profile ⟨[], []⟩ "a@x" "b@x").2 = .liked ∧
    (like_profile (like_profile ⟨[], []⟩ "a@x" "b@x").1 "b@x" "a@x").2 = .matched ∧
    mutual_between (like_profile (like_profile ⟨[], []⟩ "a@x" "b@x").1 "b@x" "a@x").1
      "a@x" "b@x" = true ∧
    mutual_between (like_profile (like_profile ⟨[], []⟩ "a@x" "b@x").1 "b@x" "a@x").1
      "b@x" "a@x" = true :=
  like_mutual_upgrade ⟨[], []⟩ "a@x" "b@x" (by simp)

/-- C6.  Idempotent like: when no reverse-direction row exists (so the first
`like(A,B)` answers `liked` rather than upgrading a mutual), repeating
`like(A,B)` is a no-op — it answers `liked` again, adds no duplicate row,
and returns the store exactly as the first call left it. -/
theorem like_idempotent (st : DBState) (A B : String)
    (hne : py_lower_strip A ≠ py_lower_strip B)
    (hrev : ∀ m ∈ st.cosmic_matches,
      ¬(m.user_a = py_lower_strip B ∧ m.user_b = py_lower_strip A)) :
    (like_profile st A B).2 = .liked ∧
    like_profile (like_profile st A B).1 A B = ((like_profile st A B).1, .liked) := by
  have hrev1 : st.cosmic_matches.find?
      (fun m => m.user_a == py_lower_strip B && m.user_b == py_lower_strip A) = none := by
    rw [List.find?_eq_none]
    intro x hx
    have hh := hrev x hx
    simp only [Bool.and_eq_true, beq_iff_eq]
    exact hh
  cases hfwd : st.cosmic_matches.find?
      (fun m => m.user_a == py_lower_strip A && m.user_b == py_lower_strip B) with
  | some m0 =>
    have h1 : like_profile st A B = (st, .liked) := by
      simp only [like_profile]
      rw [hrev1, hfwd]
      simp
    rw [h1]
    exact ⟨rfl, h1⟩
  | none =>
    have h1 : like_profile st A B =
        ({ st with cosmic_matches := st.cosmic_matches ++
            [newLike (py_lower_strip A) (py_lower_strip B)] }, .liked) := by
      simp only [like_profile]
      rw [hrev1, hfwd]
      simp
    have hrev2 : (st.cosmic_matches ++
          [newLike (py_lower_strip A) (py_lower_strip B)]).find?
        (fun m => m.user_a == py_lower_strip B && m.user_b == py_lower_strip A) = none := by
      rw [List.find?_append, hrev1]
      simp [newLike]
      intro hcon _
      exact hne hcon
    have hfwd2 : (st.cosmic_matches ++
          [newLike (py_lower_strip A) (py_lower_strip B)]).find?
        (fun m => m.user_a == py_lower_strip A && m.user_b == py_lower_strip B) =
        some (newLike (py_lower_strip A) (py_lower_strip B)) := by
      rw [List.find?_append, hfwd]
      simp [newLike]
    have h2 : like_profile ({ st with cosmic_matches := st.cosmic_matches ++
          [newLike (py_lower_strip A) (py_lower_strip B)] } : DBState) A B =
        ({ st with cosmic_matches := st.cosmic_matches ++
            [newLike (py_lower_strip A) (py_lower_strip B)] }, .liked) := by
      simp only [like_profile]
      rw [hrev2, hfwd2]
      simp
    rw [h1]
    exact ⟨rfl, h2⟩

theorem like_idempotent_witness :
    (like_profile ⟨[], []⟩ "a@x" "b@x").2 = .liked ∧
    like_profile (like_profile ⟨[], []⟩ "a@x" "b@x").1 "a@x" "b@x" =
      ((like_profile ⟨[], []⟩ "a@x" "b@x").1, .liked) :=
  like_idempotent ⟨[], []⟩ "a@x" "b@x" (by decide) (by simp)

/-- C7.  Payment gating: a user whose own side is already accepted on two
match rows, accepting a further pending request (neither side accepted yet)
without the paid flag, receives the distinguishable `payment_required`
status, and the store is returned unchanged — no acceptance or unlock flag is
mutated. -/
theorem accept_chat_third_needs_payment (st : DBState) (me them is_paid : String)
    (m : MatchRec)
    (hfind : st.cosmic_matches.find?
        (pairPred (py_lower_strip me) (py_lower_strip them)) = some m)
    (hpa : m.user_a_accepted = false) (hpb : m.user_b_accepted = false)
    (heng : 2 ≤ engagedCount st (py_lower_strip me))
    (hpaid : py_lower is_paid ≠ "true") :
    accept_chat st me them is_paid = (st, .payment_required) := by
  simp only [accept_chat]
  rw [hfind]
  have hp : (py_lower is_paid == "true") = false := by
    simpa using hpaid
  rw [hp]
  simp [hpa, hpb, heng]

theorem accept_chat_third_needs_payment_witness :
    accept_chat
      ⟨[⟨"a@x", "c@x", true, false, true, false, "a@x", false, false⟩,
        ⟨"a@x", "d@x", true, false, true, false, "a@x", false, false⟩,
        ⟨"a@x", "b@x", true, false, false, false, "a@x", false, false⟩], []⟩
      "a@x" "b@x" "false" =
    (⟨[⟨"a@x", "c@x", true, false, true, false, "a@x", false, false⟩,
       ⟨"a@x", "d@x", true, false, true, false, "a@x", false, false⟩,
       ⟨"a@x", "b@x", true, false, false, false, "a@x", false, false⟩], []⟩,
     .payment_required) :=
  accept_chat_third_needs_payment
    ⟨[⟨"a@x", "c@x", true, false, true, false, "a@x", false, false⟩,
      ⟨"a@x", "d@x", true, false, true, false, "a@x", false, false⟩,
      ⟨"a@x", "b@x", true, false, false, false, "a@x", false, false⟩], []⟩
    "a@x" "b@x" "false"
    ⟨"a@x", "b@x", true, false, false, false, "a@x", false, false⟩
    (by decide) rfl rfl (by decide) (by decide)

/-- The twelve sign names of `zodiac_data`. -/
def sign_names : List String := zodiac_data.map Prod.snd

theorem get_sun_sign_total (day month : Nat) (h1 : 1 ≤ month) (h2 : month ≤ 12) :
    ∃ s, get_sun_sign day month = some s ∧ s ∈ sign_names := by
  interval_cases month <;>
    (simp [get_sun_sign, pyIndex, zodiac_data]
     split <;> exact ⟨_, rfl, by decide⟩)

theorem find_el_total (s : String) (h : s ∈ sign_names) : (find_el s).isSome := by
  simp only [sign_names, zodiac_data, List.map_cons, List.map_nil, List.mem_cons,
    List.not_mem_nil, or_false] at h
  rcases h with rfl | rfl | rfl | rfl | rfl | rfl | rfl | rfl | rfl | rfl | rfl | rfl <;>
    decide

theorem get_astrology_score_total (s s' : String)
    (h : (find_el s).isSome) (h' : (find_el s').isSome) :
    (get_astrology_score s s').isSome := by
  unfold get_astrology_score
  obtain ⟨ea, hea⟩ := Option.isSome_iff_exists.mp h
  obtain ⟨eb, heb⟩ := Option.isSome_iff_exists.mp h'
  simp only [hea, heb, Option.bind_eq_bind, Option.some_bind]
  split
  · rfl
  · split <;> rfl

/-- C10.  Zodiac lookup totality: for any two valid calendar dates,
`get_sun_sign` returns one of the twelve sign names of `zodiac_data`, every
one of those names sits in exactly one element group of the table in
`get_astrology_score`, and consequently the element lookup inside
`get_astrology_score` succeeds on any two `get_sun_sign` outputs. -/
theorem sun_sign_element_total (day month day' month' : Nat)
    (_hd : 1 ≤ day ∧ day ≤ 31) (hm : 1 ≤ month ∧ month ≤ 12)
    (_hd' : 1 ≤ day' ∧ day' ≤ 31) (hm' : 1 ≤ month' ∧ month' ≤ 12) :
    ∃ s s', get_sun_sign day month = some s ∧ get_sun_sign day' month' = some s' ∧
      s ∈ sign_names ∧ s' ∈ sign_names ∧
      (∀ t ∈ sign_names, (elements.filter (fun kv => kv.2.contains t)).length = 1) ∧
      (get_astrology_score s s').isSome := by
  obtain ⟨s, hs, hsm⟩ := get_sun_sign_total day month hm.1 hm.2
  obtain ⟨s', hs', hsm'⟩ := get_sun_sign_total day' month' hm'.1 hm'.2
  exact ⟨s, s', hs, hs', hsm, hsm', by decide,
    get_astrology_score_total s s' (find_el_total s hsm) (find_el_total s' hsm')⟩

theorem sun_sign_element_total_witness :
    ∃ s s', get_sun_sign 1 1 = some s ∧ get_sun_sign 29 2 = some s' ∧
      s ∈ sign_names ∧ s' ∈ sign_names ∧
      (∀ t ∈ sign_names, (elements.filter (fun kv => kv.2.contains t)).length = 1) ∧
      (get_astrology_score s s').isSome :=
  sun_sign_element_total 1 1 29 2 (by decide) (by decide) (by decide) (by decide)

/-- A palm signature the scorer can handle: absent (falsy `""` or the
placeholder `"NONE"`, substituted by the fixed default `0`), or with a
4-character prefix that `int(_, 16)` parses. -/
def sig_ok (s : String) : Prop :=
  s = "" ∨ s = "NONE" ∨ (pyIntHex (String.mk (s.toList.take 4))).isSome

instance (s : String) : Decidable (sig_ok s) :=
  inferInstanceAs (Decidable (s = "" ∨ s = "NONE" ∨
    (pyIntHex (String.mk (s.toList.take 4))).isSome))

theorem palm_val_total (s : String) (h : sig_ok s) : (palm_val s).isSome := by
  unfold palm_val
  rcases h with rfl | rfl | h
  · simp
  · simp
  · split
    · exact h
    · rfl

theorem get_palm_variance_total (a b : String) (ha : sig_ok a) (hb : sig_ok b) :
    (get_palm_variance a b).isSome := by
  unfold get_palm_variance
  obtain ⟨x, hx⟩ := Option.isSome_iff_exists.mp (palm_val_total a ha)
  obtain ⟨y, hy⟩ := Option.isSome_iff_exists.mp (palm_val_total b hb)
  simp only [hx, hy, Option.bind_eq_bind, Option.some_bind]
  rfl

/-- C8 counterexample.  The claim that "any structurally invalid attribute
value results in a default rather than an error" is false: a present,
non-`"NONE"` palm signature whose 4-character prefix is not hexadecimal
(here `"ZZZZ"`) makes `int(sig[:4], 16)` raise `ValueError`, which escapes
`get_palm_variance` and undefines the whole pair score (modelled as
`none`). -/
theorem pair_score_invalid_palm_error :
    pairScore ⟨"alice", none, 1, 1, "ZZZZ"⟩ ⟨"bob", none, 25, 12, ""⟩ = none := by decide

/-- C8 (amended).  For users with valid birth months and palm signatures
that are either absent (the empty falsy string or the `"NONE"` placeholder,
substituted by the fixed default `0`) or hex-parsable, the pair scorer is
total: no exception escapes and a score tuple is always produced.  (A
structurally invalid palm signature, by contrast, raises — see the
counterexample.) -/
theorem pair_score_total_on_valid (me o : PairAttrs)
    (hm1 : 1 ≤ me.birthday_month) (hm2 : me.birthday_month ≤ 12)
    (ho1 : 1 ≤ o.birthday_month) (ho2 : o.birthday_month ≤ 12)
    (hpa : sig_ok me.palm_signature) (hpb : sig_ok o.palm_signature) :
    (pairScore me o).isSome := by
  unfold pairScore
  obtain ⟨s, hs, hsm⟩ := get_sun_sign_total me.birthday_day me.birthday_month hm1 hm2
  obtain ⟨s', hs', hsm'⟩ := get_sun_sign_total o.birthday_day o.birthday_month ho1 ho2
  obtain ⟨av, hav⟩ := Option.isSome_iff_exists.mp
    (get_astrology_score_total s s' (find_el_total s hsm) (find_el_total s' hsm'))
  obtain ⟨pv, hpv⟩ := Option.isSome_iff_exists.mp
    (get_palm_variance_total me.palm_signature o.palm_signature hpa hpb)
  simp only [hs, hs', hav, hpv, Option.bind_eq_bind, Option.some_bind]
  rfl

theorem pair_score_total_on_valid_witness :
    (pairScore ⟨"alice", none, 1, 1, "deadbeef"⟩
      ⟨"bob", some "Robert Smith", 25, 12, "NONE"⟩).isSome :=
  pair_score_total_on_valid ⟨"alice", none, 1, 1, "deadbeef"⟩
    ⟨"bob", some "Robert Smith", 25, 12, "NONE"⟩
    (by decide) (by decide) (by decide) (by decide) (by decide) (by decide)

end Cosmic
